import Mathlib

/-!
Verification of the `cors` package (a CORS middleware for Go HTTP servers)
against its specification.  The data model and the operations are shallowly
embedded: the compiled policy (`Cors`), the policy compiler (`New`), the
negotiation engine (`handlePreflight`, `handleActualRequest`), the matching
primitives (`isOriginAllowed`, `isMethodAllowed`, `areHeadersAllowed`), and
the three handler adapters (`Handler`, `HandlerFunc`, `ServeHTTP`).

Strings are modelled as Lean `String`s operated on through their character
lists; all header names and origins handled by the middleware are ASCII, so
character-level operations agree with Go's byte-level ones.
-/

/-- ASCII lower-casing of a single character (as `strings.ToLower` acts on
ASCII letters; non-ASCII is irrelevant for header names and origins here). -/
def lowerChar (c : Char) : Char :=
  if 65 ≤ c.toNat && c.toNat ≤ 90 then Char.ofNat (c.toNat + 32) else c

/-- ASCII upper-casing of a single character. -/
def upperChar (c : Char) : Char :=
  if 97 ≤ c.toNat && c.toNat ≤ 122 then Char.ofNat (c.toNat - 32) else c

/-- Lower-case a string (models `strings.ToLower` on ASCII data). -/
def lowerStr (s : String) : String := String.mk (s.data.map lowerChar)

/-- Upper-case a string (models `strings.ToUpper` on ASCII data). -/
def upperStr (s : String) : String := String.mk (s.data.map upperChar)

/-- Membership scan over a string list, as the Go code's linear search
loops compare with `==`. -/
def containsStr : List String → String → Bool
  | [], _ => false
  | x :: xs, s => x == s || containsStr xs s

/-- Does the first character list start the second one? (models
`strings.HasPrefix` at character level). -/
def hasPfx : List Char → List Char → Bool
  | [], _ => true
  | _ :: _, [] => false
  | a :: as, b :: bs => a == b && hasPfx as bs

/-- Does the first character list end the second one? (models
`strings.HasSuffix` at character level). -/
def hasSfx (p s : List Char) : Bool := hasPfx p.reverse s.reverse

/-- Comma-space join, as `strings.Join(xs, ", ")`. -/
def joinComma : List String → String
  | [] => ""
  | [x] => x
  | x :: xs => x ++ ", " ++ joinComma xs

/-- Is `c` ASCII whitespace (space, tab, CR, LF)? -/
def isSpaceChar (c : Char) : Bool := c == ' ' || c == '\t' || c == '\n' || c == '\r'

/-- Trim ASCII whitespace from both ends of a character list. -/
def trimChars (l : List Char) : List Char :=
  ((l.dropWhile isSpaceChar).reverse.dropWhile isSpaceChar).reverse

/-- Split a character list on commas (auxiliary accumulator carries the
current token reversed). -/
def splitCommaAux : List Char → List Char → List (List Char)
  | [], cur => [cur.reverse]
  | c :: cs, cur =>
    if c == ',' then cur.reverse :: splitCommaAux cs []
    else splitCommaAux cs (c :: cur)

/-- Split a character list at its first asterisk: `some (before, after)`
when one is present, `none` otherwise (models `strings.IndexByte(o, '*')`
followed by the two slices `o[:i]` and `o[i+1:]`). -/
def splitStar : List Char → Option (List Char × List Char)
  | [] => none
  | c :: cs =>
    if c == '*' then some ([], cs)
    else
      match splitStar cs with
      | none => none
      | some (p, s) => some (c :: p, s)

/-- Canonicalize header-name characters: upper-case the first letter of each
hyphen-separated segment, lower-case the rest.  The flag says whether the
next character starts a segment. -/
def canonChars : Bool → List Char → List Char
  | _, [] => []
  | up, c :: cs =>
    (if up then upperChar c else lowerChar c) :: canonChars (c == '-') cs

/-- Header-name canonicalization (the behavior of `http.CanonicalHeaderKey`
as described in the spec: first letter of each hyphen-separated segment
upper-cased, the rest lower-cased). -/
def canonicalHeaderKey (s : String) : String := String.mk (canonChars true s.data)

/-- Modelled from the spec: `parseHeaderList` lives in `utils.go`, which is
absent from the sources (only `utils_test.go` is present).  Per the spec it
splits its input on commas, trims ASCII whitespace around each token,
discards empty tokens, canonicalizes each surviving token to header-name
case, and deduplicates while preserving first-seen order (deduplication is
case-insensitive by construction because it runs on canonical forms). -/
def parseHeaderList (raw : String) : List String :=
  let toks := (splitCommaAux raw.data []).map trimChars
  let toks := toks.filter (fun t => !t.isEmpty)
  let canon := toks.map (fun t => String.mk (canonChars true t))
  canon.foldl (fun acc h => if containsStr acc h then acc else acc ++ [h]) []

/-- Modelled from the spec: the `wildcard` type lives in `utils.go`, which
is absent from the sources.  A pattern is the pair of the substrings before
and after the first `*` of an origin pattern.  (Fields are named `wpre` and
`wsuf`; they model the Go struct's two string fields.) -/
structure wildcard where
  wpre : String
  wsuf : String
deriving DecidableEq, Repr

/-- Modelled from the spec: a candidate matches a wildcard pattern when its
length is at least `len(wpre)+len(wsuf)`, it starts with `wpre`, and it
ends with `wsuf`. -/
def wildcard.wmatch (w : wildcard) (s : String) : Bool :=
  decide (w.wpre.length + w.wsuf.length ≤ s.length) &&
    hasPfx w.wpre.data s.data && hasSfx w.wsuf.data s.data

/-- Response header sets are modelled as ordered lists of (name, value)
pairs, in emission order. -/
abbrev Headers := List (String × String)

/-- `headers.Add(k, v)`: append an entry (multiple entries per name allowed,
order-preserving), as used for `Vary`. -/
def addHeader (h : Headers) (k v : String) : Headers := h ++ [(k, v)]

/-- `headers.Set(k, v)`: replace-if-present, single value. -/
def setHeader (h : Headers) (k v : String) : Headers :=
  h.filter (fun p => p.1 != k) ++ [(k, v)]

/-- The configuration container (`Options` in `cors.go`).  The `Debug` flag
and the logger are omitted: the diagnostic sink never affects header
output.  Field defaults are the Go zero values. -/
structure Options where
  AllowedOrigins : List String := []
  AllowOriginFunc : Option (String → Bool) := none
  AllowedMethods : List String := []
  AllowedHeaders : List String := []
  ExposedHeaders : List String := []
  MaxAge : Int := 0
  AllowCredentials : Bool := false
  OptionsPassthrough : Bool := false

/-- The compiled policy (`Cors` in `cors.go`), minus the logger. -/
structure Cors where
  allowedOrigins : List String
  allowedWOrigins : List wildcard
  allowOriginFunc : Option (String → Bool)
  allowedHeaders : List String
  allowedMethods : List String
  exposedHeaders : List String
  maxAge : Int
  allowedOriginsAll : Bool
  allowedHeadersAll : Bool
  allowCredentials : Bool
  optionPassthrough : Bool

/-- The origin-list scan of `New`: iterate the configured origins in order,
lower-casing each; a literal `"*"` sets the allow-all flag, discards
everything collected so far and stops the scan; an entry containing `*`
becomes a wildcard pattern split at its first `*`; anything else is kept
verbatim (lower-cased) as an exact origin.  Returns
(exact origins, wildcard origins, allow-all flag). -/
def originScan (acc : List String × List wildcard) :
    List String → List String × List wildcard × Bool
  | [] => (acc.1, acc.2, false)
  | o :: rest =>
    let ol := lowerStr o
    if ol == "*" then ([], [], true)
    else
      match splitStar ol.data with
      | some (p, s) => originScan (acc.1, acc.2 ++ [⟨String.mk p, String.mk s⟩]) rest
      | none => originScan (acc.1 ++ [ol], acc.2) rest

/-- The policy compiler (`New` in `cors.go`): normalizes the configuration
into a fast-to-query policy.  Compilation is total. -/
def New (options : Options) : Cors :=
  let base : Cors :=
    { allowedOrigins := []
      allowedWOrigins := []
      allowOriginFunc := options.AllowOriginFunc
      allowedHeaders := []
      allowedMethods := []
      exposedHeaders := options.ExposedHeaders.map canonicalHeaderKey
      maxAge := options.MaxAge
      allowedOriginsAll := false
      allowedHeadersAll := false
      allowCredentials := options.AllowCredentials
      optionPassthrough := options.OptionsPassthrough }
  let c :=
    if options.AllowedOrigins.isEmpty then
      if options.AllowOriginFunc.isNone then { base with allowedOriginsAll := true }
      else base
    else
      let r := originScan ([], []) options.AllowedOrigins
      { base with
          allowedOrigins := r.1
          allowedWOrigins := r.2.1
          allowedOriginsAll := r.2.2 }
  let c :=
    if options.AllowedHeaders.isEmpty then
      { c with allowedHeaders := ["Origin", "Accept", "Content-Type", "X-Requested-With"] }
    else if containsStr options.AllowedHeaders "*" then
      { c with allowedHeadersAll := true, allowedHeaders := [] }
    else
      { c with allowedHeaders :=
          (options.AllowedHeaders ++ ["Origin"]).map canonicalHeaderKey }
  if options.AllowedMethods.isEmpty then
    { c with allowedMethods := ["GET", "POST", "HEAD"] }
  else
    { c with allowedMethods := options.AllowedMethods.map upperStr }

/-- `Default()` creates the policy of the empty configuration. -/
def Default : Cors := New {}

/-- `AllowAll()` creates a policy allowing every origin, header and the
listed methods, with credentials. -/
def AllowAll : Cors :=
  New { AllowedOrigins := ["*"]
        AllowedMethods := ["HEAD", "GET", "POST", "PUT", "PATCH", "DELETE"]
        AllowedHeaders := ["*"]
        AllowCredentials := true }

/-- The request view: the request method and the three request headers the
engine reads (as `r.Method` and `r.Header.Get` of each name; a `Get` on an
absent header returns the empty string, so absent and empty coincide). -/
structure Request where
  method : String
  origin : String
  acrMethod : String
  acrHeaders : String

/-- `isOriginAllowed`: the predicate, when present, fully decides; else the
allow-all flag; else exact membership of the lower-cased origin; else a
wildcard pattern match on the lower-cased origin. -/
def Cors.isOriginAllowed (c : Cors) (origin : String) : Bool :=
  match c.allowOriginFunc with
  | some f => f origin
  | none =>
    if c.allowedOriginsAll then true
    else
      let ol := lowerStr origin
      containsStr c.allowedOrigins ol || c.allowedWOrigins.any (fun w => w.wmatch ol)

/-- `isMethodAllowed`: an empty compiled method list rejects everything;
otherwise the upper-cased method is allowed if it is `OPTIONS` or is in the
list. -/
def Cors.isMethodAllowed (c : Cors) (method : String) : Bool :=
  if c.allowedMethods.isEmpty then false
  else
    let m := upperStr method
    if m == "OPTIONS" then true
    else containsStr c.allowedMethods m

/-- `areHeadersAllowed`: all-or-nothing check of the parsed requested
headers against the compiled allow-list. -/
def Cors.areHeadersAllowed (c : Cors) (reqHeaders : List String) : Bool :=
  if c.allowedHeadersAll || reqHeaders.isEmpty then true
  else reqHeaders.all (fun h => containsStr c.allowedHeaders (canonicalHeaderKey h))

/-- The preflight path of the negotiation engine (`handlePreflight`),
returning the response header set it leaves behind, starting from
`headers`.  Every abort is an early return; no error is ever raised (the
function is total and only returns a header set). -/
def handlePreflight (c : Cors) (r : Request) (headers : Headers) : Headers :=
  if r.method != "OPTIONS" then headers
  else
    let headers := addHeader headers "Vary" "Origin"
    let headers := addHeader headers "Vary" "Access-Control-Request-Method"
    let headers := addHeader headers "Vary" "Access-Control-Request-Headers"
    if r.origin == "" then headers
    else if !(c.isOriginAllowed r.origin) then headers
    else if !(c.isMethodAllowed r.acrMethod) then headers
    else
      let reqHeaders := parseHeaderList r.acrHeaders
      if !(c.areHeadersAllowed reqHeaders) then headers
      else
        let headers :=
          if c.allowedOriginsAll && !c.allowCredentials then
            setHeader headers "Access-Control-Allow-Origin" "*"
          else
            setHeader headers "Access-Control-Allow-Origin" r.origin
        let headers := setHeader headers "Access-Control-Allow-Methods" (upperStr r.acrMethod)
        let headers :=
          if 0 < reqHeaders.length then
            setHeader headers "Access-Control-Allow-Headers" (joinComma reqHeaders)
          else headers
        let headers :=
          if c.allowCredentials then
            setHeader headers "Access-Control-Allow-Credentials" "true"
          else headers
        if 0 < c.maxAge then
          setHeader headers "Access-Control-Max-Age"
            (String.mk (Nat.toDigits 10 c.maxAge.toNat))
        else headers

/-- The actual-request path of the negotiation engine
(`handleActualRequest`). -/
def handleActualRequest (c : Cors) (r : Request) (headers : Headers) : Headers :=
  if r.method == "OPTIONS" then headers
  else
    let headers := addHeader headers "Vary" "Origin"
    if r.origin == "" then headers
    else if !(c.isOriginAllowed r.origin) then headers
    else if !(c.isMethodAllowed r.method) then headers
    else
      let headers :=
        if c.allowedOriginsAll && !c.allowCredentials then
          setHeader headers "Access-Control-Allow-Origin" "*"
        else
          setHeader headers "Access-Control-Allow-Origin" r.origin
      let headers :=
        if 0 < c.exposedHeaders.length then
          setHeader headers "Access-Control-Expose-Headers" (joinComma c.exposedHeaders)
        else headers
      if c.allowCredentials then
        setHeader headers "Access-Control-Allow-Credentials" "true"
      else headers

/-- The observable outcome of one adapter call: the header set the
middleware emitted, the status it wrote (if it finalized the response
itself), and whether it invoked the downstream handler / continuation. -/
structure Response where
  headers : Headers
  status : Option Nat
  downstreamCalled : Bool
deriving DecidableEq, Repr

/-- The routing predicate shared by all three adapters: method is `OPTIONS`
and `Access-Control-Request-Method` is present and non-empty. -/
def isPreflight (r : Request) : Bool :=
  r.method == "OPTIONS" && r.acrMethod != ""

/-- The `Handler` adapter (wrap-a-downstream-handler): preflight requests
run the preflight path and then either pass through to the downstream
handler or finalize with status 200; all other requests run the
actual-request path and always reach the downstream handler. -/
def Handler (c : Cors) (r : Request) : Response :=
  if isPreflight r then
    let h := handlePreflight c r []
    if c.optionPassthrough then ⟨h, none, true⟩
    else ⟨h, some 200, false⟩
  else
    ⟨handleActualRequest c r [], none, true⟩

/-- The `HandlerFunc` adapter (write-into-a-response-directly): same
routing, but it never finalizes the status and has no downstream handler
to call. -/
def HandlerFunc (c : Cors) (r : Request) : Response :=
  if isPreflight r then ⟨handlePreflight c r [], none, false⟩
  else ⟨handleActualRequest c r [], none, false⟩

/-- The `ServeHTTP` adapter (delegate-to-a-continuation): same branching as
`Handler`, with `next` in place of the wrapped handler. -/
def ServeHTTP (c : Cors) (r : Request) : Response :=
  if isPreflight r then
    let h := handlePreflight c r []
    if c.optionPassthrough then ⟨h, none, true⟩
    else ⟨h, some 200, false⟩
  else
    ⟨handleActualRequest c r [], none, true⟩

/-- The three Vary entries the preflight path always emits once it has
passed the defensive method check. -/
def vary3 : Headers :=
  [("Vary", "Origin"), ("Vary", "Access-Control-Request-Method"),
   ("Vary", "Access-Control-Request-Headers")]

/-- The tail of headers the preflight path emits after the three Vary
entries on full success, with each entry's presence condition. -/
def preflightSuccessTail (c : Cors) (r : Request) : Headers :=
  [("Access-Control-Allow-Origin",
      if c.allowedOriginsAll && !c.allowCredentials then "*" else r.origin),
   ("Access-Control-Allow-Methods", upperStr r.acrMethod)] ++
  (if 0 < (parseHeaderList r.acrHeaders).length then
      [("Access-Control-Allow-Headers", joinComma (parseHeaderList r.acrHeaders))]
    else []) ++
  (if c.allowCredentials then [("Access-Control-Allow-Credentials", "true")] else []) ++
  (if 0 < c.maxAge then
      [("Access-Control-Max-Age", String.mk (Nat.toDigits 10 c.maxAge.toNat))]
    else [])

/-- A predicate admitting every origin, used as a concrete
`AllowOriginFunc` below. -/
def alwaysTrue : String → Bool := fun _ => true

/-- The empty configuration (every field at its Go zero value). -/
def optsEmpty : Options := {}

/-- A configuration supplying both an origin predicate and an origins list
containing the literal star. -/
def c1optsStar : Options :=
  { AllowedOrigins := ["*"], AllowOriginFunc := some alwaysTrue }

/-- The same configuration with the origins list absent. -/
def c1optsNoList : Options := { AllowOriginFunc := some alwaysTrue }

/-- A preflight request from `http://example.com` asking for method GET. -/
def c1req : Request := ⟨"OPTIONS", "http://example.com", "GET", ""⟩

/-- A request reaching the preflight path with a non-OPTIONS method. -/
def c3req : Request := ⟨"GET", "http://example.com", "GET", ""⟩

/-- An OPTIONS preflight request with an empty Origin header. -/
def c3abortReq : Request := ⟨"OPTIONS", "", "GET", ""⟩

/-- A policy whose internal compiled method list is empty (no `New`
configuration produces this; it exercises the engine's own guard). -/
def noMethodsCors : Cors := { Default with allowedMethods := [] }

/-- A policy allowing origin `http://foobar.com` and headers X-Header-1 and
X-Header-2 (plus the implicit Origin). -/
def c5cors : Cors :=
  New { AllowedOrigins := ["http://foobar.com"],
        AllowedHeaders := ["X-Header-1", "x-header-2"] }

/-- A preflight request asking for a partially-disallowed header set. -/
def c5req : Request := ⟨"OPTIONS", "http://foobar.com", "GET", "X-Header-3, X-Header-1"⟩

/-- A policy with one exact origin, method GET, max age 10 and
credentials. -/
def c6cors : Cors :=
  New { AllowedOrigins := ["http://example.com/"], AllowedMethods := ["GET"],
        MaxAge := 10, AllowCredentials := true }

/-- A fully admissible preflight request (lower-case requested method,
requesting the implicitly-allowed Origin header). -/
def c6req : Request := ⟨"OPTIONS", "http://example.com/", "get", "origin"⟩

/-- An OPTIONS request without an Access-Control-Request-Method header. -/
def c7req : Request := ⟨"OPTIONS", "http://foobar.com", "", ""⟩

/-- A configuration with a single wildcard origin pattern. -/
def c9opts : Options := { AllowedOrigins := ["http://*.bar.com"] }

/-- A policy with one exact allowed origin and no options passthrough. -/
def c10cors : Cors := New { AllowedOrigins := ["http://foobar.com"] }

/-- A preflight request from an origin the policy rejects. -/
def c10req : Request := ⟨"OPTIONS", "http://evil.com", "GET", ""⟩

/-- A preflight call whose request method is not OPTIONS emits nothing. -/
theorem preflight_wrong_method (c : Cors) (r : Request) (hm : r.method ≠ "OPTIONS") :
    handlePreflight c r [] = [] := by
  simp [handlePreflight, bne_iff_ne, hm]

/-- A preflight call that aborts at any point after the method check emits
exactly the three Vary entries. -/
theorem preflight_abort (c : Cors) (r : Request) (hm : r.method = "OPTIONS")
    (habort : r.origin = "" ∨ c.isOriginAllowed r.origin = false ∨
      c.isMethodAllowed r.acrMethod = false ∨
      c.areHeadersAllowed (parseHeaderList r.acrHeaders) = false) :
    handlePreflight c r [] = vary3 := by
  by_cases h1 : r.origin = "" <;>
  by_cases h2 : c.isOriginAllowed r.origin = true <;>
  by_cases h3 : c.isMethodAllowed r.acrMethod = true <;>
  by_cases h4 : c.areHeadersAllowed (parseHeaderList r.acrHeaders) = true <;>
  rcases habort with h | h | h | h <;>
  simp_all [handlePreflight, vary3, addHeader]

/-- A preflight call that passes every check emits the three Vary entries
followed by the success tail. -/
theorem preflight_success (c : Cors) (r : Request)
    (hm : r.method = "OPTIONS") (ho : r.origin ≠ "")
    (h2 : c.isOriginAllowed r.origin = true)
    (h3 : c.isMethodAllowed r.acrMethod = true)
    (h4 : c.areHeadersAllowed (parseHeaderList r.acrHeaders) = true) :
    handlePreflight c r [] = vary3 ++ preflightSuccessTail c r := by
  by_cases ba : c.allowedOriginsAll = true <;>
  by_cases bc : c.allowCredentials = true <;>
  by_cases b2 : 0 < (parseHeaderList r.acrHeaders).length <;>
  by_cases b4 : (0 : Int) < c.maxAge <;>
  simp [handlePreflight, preflightSuccessTail, vary3, addHeader, setHeader,
    hm, ho, h2, h3, h4, ba, bc, b2, b4]

/-- If some parsed header fails the allow-list scan and the all-headers
flag is off, the header admissibility check rejects the whole list. -/
theorem areHeadersAllowed_false (c : Cors) (l : List String)
    (hall : c.allowedHeadersAll = false)
    (hbad : ∃ hd, hd ∈ l ∧ containsStr c.allowedHeaders (canonicalHeaderKey hd) = false) :
    c.areHeadersAllowed l = false := by
  obtain ⟨hd, hmem, hno⟩ := hbad
  have hne : l.isEmpty = false := by
    cases l with
    | nil => cases hmem
    | cons a t => rfl
  simp only [Cors.areHeadersAllowed, hall, hne, Bool.or_self, if_false]
  refine Bool.eq_false_iff.mpr (fun hAll => ?_)
  have hx := List.all_eq_true.mp hAll hd hmem
  simp only [hno] at hx
  cases hx

/-- Character-level Boolean starts-with check agrees with list prefixes. -/
theorem hasPfx_iff : ∀ p s : List Char, hasPfx p s = true ↔ p <+: s
  | [], s => by simp [hasPfx]
  | a :: as, [] => by simp [hasPfx]
  | a :: as, b :: bs => by
    simp [hasPfx, hasPfx_iff as bs, List.cons_prefix_cons]

/-- Character-level Boolean ends-with check agrees with list suffixes. -/
theorem hasSfx_iff (p s : List Char) : hasSfx p s = true ↔ p <:+ s := by
  rw [hasSfx, hasPfx_iff, List.reverse_prefix]

/-- Claim C1: the claim states that with an origin predicate supplied the
origins list is ignored entirely, so that a `"*"` entry in the list leaves
the observable behavior identical to an absent list.  The code violates
this: the origin-list scan still runs and a `"*"` entry sets
`allowedOriginsAll`, which switches the emitted
`Access-Control-Allow-Origin` from the echoed origin to the literal `*`.
This theorem evaluates both policies at the failing input: admissibility is
indeed decided by the predicate in both, yet the emitted headers differ. -/
theorem C1_star_not_ignored :
    (New c1optsStar).isOriginAllowed "http://example.com" = true ∧
    (New c1optsNoList).isOriginAllowed "http://example.com" = true ∧
    handlePreflight (New c1optsStar) c1req [] =
      vary3 ++ [("Access-Control-Allow-Origin", "*"),
        ("Access-Control-Allow-Methods", "GET")] ∧
    handlePreflight (New c1optsNoList) c1req [] =
      vary3 ++ [("Access-Control-Allow-Origin", "http://example.com"),
        ("Access-Control-Allow-Methods", "GET")] := by decide

/-- Claim C2: for every compiled policy and request view, the three handler
adapters produce identical response header sets. -/
theorem C2_adapter_header_equivalence (c : Cors) (r : Request) :
    (Handler c r).headers = (HandlerFunc c r).headers ∧
    (ServeHTTP c r).headers = (HandlerFunc c r).headers := by
  cases hp : isPreflight r <;> cases ht : c.optionPassthrough <;>
    simp [Handler, HandlerFunc, ServeHTTP, hp, ht]

/-- Claim C3 counterexample: the claim says the three Vary entries are
emitted before every abort point, including the defensive
method-not-OPTIONS abort.  In the code that abort fires before the Vary
entries are added: a non-OPTIONS call into the preflight path emits
nothing at all. -/
theorem C3_counterexample :
    handlePreflight Default c3req [] = [] ∧
    ("Vary", "Origin") ∉ handlePreflight Default c3req [] := by decide

/-- Claim C3 (amended): on the preflight path the defensive
method-not-OPTIONS check comes first and aborts before any header is
emitted; the three Vary entries are then emitted before all remaining
abort points (empty origin, origin not allowed, requested method not
allowed, requested headers not allowed), so when any of those aborts
fires the response holds exactly the three Vary entries and nothing else;
no abort raises an error (the path always returns a header set). -/
theorem C3_vary_before_later_aborts (c : Cors) (r : Request) :
    (r.method ≠ "OPTIONS" → handlePreflight c r [] = []) ∧
    (r.method = "OPTIONS" →
      ((r.origin = "" ∨ c.isOriginAllowed r.origin = false ∨
          c.isMethodAllowed r.acrMethod = false ∨
          c.areHeadersAllowed (parseHeaderList r.acrHeaders) = false) →
        handlePreflight c r [] = vary3) ∧
      ∃ rest, handlePreflight c r [] = vary3 ++ rest) := by
  refine ⟨fun hm => preflight_wrong_method c r hm,
    fun hm => ⟨fun hab => preflight_abort c r hm hab, ?_⟩⟩
  by_cases h1 : r.origin = ""
  · exact ⟨[], by simpa using preflight_abort c r hm (Or.inl h1)⟩
  by_cases h2 : c.isOriginAllowed r.origin = true
  swap
  · exact ⟨[], by simpa using
      preflight_abort c r hm (Or.inr (Or.inl (Bool.eq_false_iff.mpr h2)))⟩
  by_cases h3 : c.isMethodAllowed r.acrMethod = true
  swap
  · exact ⟨[], by simpa using
      preflight_abort c r hm (Or.inr (Or.inr (Or.inl (Bool.eq_false_iff.mpr h3))))⟩
  by_cases h4 : c.areHeadersAllowed (parseHeaderList r.acrHeaders) = true
  swap
  · exact ⟨[], by simpa using
      preflight_abort c r hm (Or.inr (Or.inr (Or.inr (Bool.eq_false_iff.mpr h4))))⟩
  exact ⟨preflightSuccessTail c r, preflight_success c r hm h1 h2 h3 h4⟩

/-- Witness for the amended C3: a non-OPTIONS call emits nothing; an
OPTIONS call with an empty origin emits exactly the three Vary entries. -/
theorem C3_vary_before_later_aborts_witness :
    handlePreflight Default c3req [] = [] ∧
    handlePreflight Default c3abortReq [] = vary3 :=
  ⟨(C3_vary_before_later_aborts Default c3req).1 (by decide),
   ((C3_vary_before_later_aborts Default c3abortReq).2 rfl).1 (Or.inl rfl)⟩

/-- Claim C4 counterexample: the claim says a policy compiled from an empty
configured AllowedMethods list rejects every method except OPTIONS.  In
the code an empty configured list is replaced by the defaults GET, POST,
HEAD, so GET is allowed. -/
theorem C4_counterexample : (New optsEmpty).isMethodAllowed "GET" = true := by decide

/-- Claim C4 (amended): a policy compiled from an empty configured
AllowedMethods list receives the defaults GET, POST, HEAD, so
`isMethodAllowed` returns true exactly for the upper-cased method being
OPTIONS, GET, POST or HEAD; OPTIONS is implicitly allowed whenever the
compiled method list is non-empty; and an empty compiled method list
(never produced by `New`) makes every method inadmissible, OPTIONS
included. -/
theorem C4_method_allowed (opts : Options) (c : Cors) (m : String) :
    (opts.AllowedMethods = [] →
      (New opts).isMethodAllowed m =
        containsStr ["OPTIONS", "GET", "POST", "HEAD"] (upperStr m)) ∧
    (c.allowedMethods ≠ [] → c.isMethodAllowed "OPTIONS" = true) ∧
    (c.allowedMethods = [] → c.isMethodAllowed m = false) := by
  refine ⟨fun h => ?_, fun h => ?_, fun h => ?_⟩
  · have hM : (New opts).allowedMethods = ["GET", "POST", "HEAD"] := by
      simp [New, h]
    by_cases ho : upperStr m = "OPTIONS"
    · simp [Cors.isMethodAllowed, hM, containsStr, ho]
    · have ho2 : ¬("OPTIONS" = upperStr m) := fun hh => ho hh.symm
      simp [Cors.isMethodAllowed, hM, containsStr, ho, ho2]
  · have he : c.allowedMethods.isEmpty = false := by
      cases hl : c.allowedMethods with
      | nil => exact absurd hl h
      | cons a t => rfl
    simp [Cors.isMethodAllowed, he,
      show (upperStr "OPTIONS" == "OPTIONS") = true from rfl]
  · simp [Cors.isMethodAllowed, h]

/-- Witness for the amended C4: with the empty configuration PUT is
rejected (and the right-hand side evaluates the default list), and a
policy whose internal method list is empty rejects even OPTIONS. -/
theorem C4_method_allowed_witness :
    (New optsEmpty).isMethodAllowed "PUT" =
      containsStr ["OPTIONS", "GET", "POST", "HEAD"] (upperStr "PUT") ∧
    noMethodsCors.isMethodAllowed "OPTIONS" = false :=
  ⟨(C4_method_allowed optsEmpty noMethodsCors "PUT").1 rfl,
   (C4_method_allowed optsEmpty noMethodsCors "OPTIONS").2.2 rfl⟩

/-- Claim C5: preflight header admissibility is all-or-nothing — if the
all-headers flag is off and some parsed requested header fails the
allow-list scan, the preflight aborts: the response holds no
Access-Control-* header at all (it is empty, or exactly the three Vary
entries). -/
theorem C5_headers_all_or_nothing (c : Cors) (r : Request)
    (hall : c.allowedHeadersAll = false)
    (hbad : ∃ hd, hd ∈ parseHeaderList r.acrHeaders ∧
      containsStr c.allowedHeaders (canonicalHeaderKey hd) = false) :
    handlePreflight c r [] = [] ∨ handlePreflight c r [] = vary3 := by
  by_cases hm : r.method = "OPTIONS"
  · exact Or.inr (preflight_abort c r hm
      (Or.inr (Or.inr (Or.inr (areHeadersAllowed_false c _ hall hbad)))))
  · exact Or.inl (preflight_wrong_method c r hm)

/-- Witness for C5: requesting X-Header-3 and X-Header-1 when only
X-Header-1 (and X-Header-2, Origin) is allowed yields only Vary. -/
theorem C5_headers_all_or_nothing_witness :
    handlePreflight c5cors c5req [] = [] ∨ handlePreflight c5cors c5req [] = vary3 :=
  C5_headers_all_or_nothing c5cors c5req (by decide)
    ⟨"X-Header-3", by decide, by decide⟩

/-- Claim C6: on preflight success the response is the three Vary entries
followed by: Access-Control-Allow-Origin equal to `*` exactly when
allow-all-origins holds and credentials are off, and to the literal
request origin otherwise; Access-Control-Allow-Methods equal to the
upper-cased requested method; Access-Control-Allow-Headers equal to the
comma-joined parsed requested headers exactly when that sequence is
non-empty; Access-Control-Allow-Credentials `true` exactly when the
credentials flag is on; and Access-Control-Max-Age equal to the decimal
string of `maxAge` exactly when `maxAge` is positive. -/
theorem C6_preflight_success_headers (c : Cors) (r : Request)
    (hm : r.method = "OPTIONS") (ho : r.origin ≠ "")
    (h2 : c.isOriginAllowed r.origin = true)
    (h3 : c.isMethodAllowed r.acrMethod = true)
    (h4 : c.areHeadersAllowed (parseHeaderList r.acrHeaders) = true) :
    handlePreflight c r [] =
      vary3 ++
      [("Access-Control-Allow-Origin",
          if c.allowedOriginsAll && !c.allowCredentials then "*" else r.origin),
       ("Access-Control-Allow-Methods", upperStr r.acrMethod)] ++
      (if 0 < (parseHeaderList r.acrHeaders).length then
          [("Access-Control-Allow-Headers", joinComma (parseHeaderList r.acrHeaders))]
        else []) ++
      (if c.allowCredentials then [("Access-Control-Allow-Credentials", "true")] else []) ++
      (if 0 < c.maxAge then
          [("Access-Control-Max-Age", String.mk (Nat.toDigits 10 c.maxAge.toNat))]
        else []) := by
  rw [preflight_success c r hm ho h2 h3 h4]
  simp [preflightSuccessTail]

/-- Witness for C6: a credentialed policy with max age 10 echoes the
origin, upper-cases the requested method, echoes the requested header
list, and emits the credentials and max-age headers. -/
theorem C6_preflight_success_headers_witness :
    handlePreflight c6cors c6req [] =
      vary3 ++ [("Access-Control-Allow-Origin", "http://example.com/"),
        ("Access-Control-Allow-Methods", "GET"),
        ("Access-Control-Allow-Headers", "Origin"),
        ("Access-Control-Allow-Credentials", "true"),
        ("Access-Control-Max-Age", "10")] :=
  (C6_preflight_success_headers c6cors c6req (by decide) (by decide)
      (by decide) (by decide) (by decide)).trans (by decide)

/-- Claim C7: an OPTIONS request whose Access-Control-Request-Method
header is absent or empty is routed by every adapter to the actual-request
path, which returns immediately for OPTIONS, so no header at all is
emitted — not even Vary. -/
theorem C7_nonpreflight_options (c : Cors) (r : Request)
    (hm : r.method = "OPTIONS") (ha : r.acrMethod = "") :
    (Handler c r).headers = [] ∧ (HandlerFunc c r).headers = [] ∧
    (ServeHTTP c r).headers = [] := by
  have hp : isPreflight r = false := by simp [isPreflight, ha]
  simp [Handler, HandlerFunc, ServeHTTP, hp, handleActualRequest, hm]

/-- Witness for C7 at a concrete OPTIONS request without the
request-method header. -/
theorem C7_nonpreflight_options_witness :
    (Handler Default c7req).headers = [] ∧ (HandlerFunc Default c7req).headers = [] ∧
    (ServeHTTP Default c7req).headers = [] :=
  C7_nonpreflight_options Default c7req rfl rfl

/-- Claim C8: `parseHeaderList` splits on commas, trims, drops empty
tokens, canonicalizes and deduplicates; in particular it maps the
four-token example to its canonical forms, and the empty and
whitespace-only inputs to the empty sequence (not a sequence holding an
empty string). -/
theorem C8_parseHeaderList_examples :
    parseHeaderList "header, second-header, THIRD-HEADER, Numb3r3d-H34d3r" =
      ["Header", "Second-Header", "Third-Header", "Numb3r3d-H34d3r"] ∧
    parseHeaderList "" = [] ∧
    parseHeaderList ", " = [] := by decide

/-- Claim C9: a wildcard pattern matches a candidate exactly when the
candidate is long enough for both anchors, starts with the pattern's
pre-star part and ends with its post-star part; and the policy compiled
from the single origin pattern `http://*.bar.com` holds exactly the pair
(`http://`, `.bar.com`), admits `http://foo.bar.com` and rejects
`http://foo.baz.com`. -/
theorem C9_wildcard_match (w : wildcard) (s : String) :
    (w.wmatch s = true ↔
      w.wpre.length + w.wsuf.length ≤ s.length ∧
        w.wpre.data <+: s.data ∧ w.wsuf.data <:+ s.data) ∧
    (New c9opts).allowedWOrigins = [⟨"http://", ".bar.com"⟩] ∧
    (New c9opts).isOriginAllowed "http://foo.bar.com" = true ∧
    (New c9opts).isOriginAllowed "http://foo.baz.com" = false := by
  refine ⟨?_, by decide, by decide, by decide⟩
  simp [wildcard.wmatch, hasPfx_iff, hasSfx_iff, and_assoc]

/-- Witness for C9: the pattern (`http://`, `.bar.com`) matches
`http://foo.bar.com`, through the characterization. -/
theorem C9_wildcard_match_witness :
    wildcard.wmatch ⟨"http://", ".bar.com"⟩ "http://foo.bar.com" = true :=
  (C9_wildcard_match ⟨"http://", ".bar.com"⟩ "http://foo.bar.com").1.mpr
    ⟨by decide, by decide, by decide⟩

/-- Claim C10: the `Handler` adapter with passthrough off finalizes every
preflight request with status 200 and never invokes the downstream
handler, whether or not the preflight was admissible; a rejection shows
only in the headers, never in the status. -/
theorem C10_preflight_finalized (c : Cors) (r : Request)
    (hp : isPreflight r = true) (hpt : c.optionPassthrough = false) :
    (Handler c r).status = some 200 ∧ (Handler c r).downstreamCalled = false := by
  simp [Handler, hp, hpt]

/-- Witness for C10 at a rejected preflight (origin not allowed): the
status is still 200 and the downstream handler is not invoked. -/
theorem C10_preflight_finalized_witness :
    (Handler c10cors c10req).status = some 200 ∧
    (Handler c10cors c10req).downstreamCalled = false :=
  C10_preflight_finalized c10cors c10req (by decide) (by decide)
